import Mathlib

/-!
Verification of the MCP consent/routing core of the finops-mcp-bedrock
repository: the mutation classifier, the consent gate, the tool invocation
wrapper (src/utils/mcp_tools_wrapper.py, src/utils/mcp_consent.py) and the
server lifecycle controller (src/ui/app.py), shallowly embedded in Lean 4.

Argument mappings (Python dicts with string keys and string values) are
modelled as association lists; Python string operations (`in` as substring
test, `.lower()`, `.strip()`, `or` on strings, `str(dict)`) are modelled by
explicit executable functions below.
-/

/-- Substring occurrence on character lists: `listInfixOf pat s` is true
iff `pat` occurs contiguously inside `s` (Python's `pat in s`). -/
def listInfixOf (pat : List Char) : List Char → Bool
  | [] => pat.isEmpty
  | c :: rest => pat.isPrefixOf (c :: rest) || listInfixOf pat rest

/-- Python's `pat in s` substring test on strings. -/
def strContains (s pat : String) : Bool :=
  listInfixOf pat.toList s.toList

/-- Python's `s.lower()` (character-wise, executable). -/
def pyLower (s : String) : String :=
  String.mk (s.toList.map Char.toLower)

/-- Python's `s.strip()`: leading and trailing whitespace removed. -/
def pyStrip (s : String) : String :=
  String.mk
    (((s.toList.dropWhile Char.isWhitespace).reverse.dropWhile
        Char.isWhitespace).reverse)

/-- An argument mapping: a Python dict with string keys and string values. -/
abbrev Args := List (String × String)

/-- Python's `d.get(k, "")`: the value under the first matching key, or `""`. -/
def getArg (args : Args) (k : String) : String :=
  match args.find? (fun kv => kv.1 == k) with
  | some kv => kv.2
  | none => ""

/-- Python's `a or b` for strings: `a` if non-empty (truthy), else `b`. -/
def pyOr (a b : String) : String :=
  if a = "" then b else a

/-- Python's `str(d)` for a dict with string keys and values:
`\x7b'k1': 'v1', 'k2': 'v2'\x7d`. -/
def pyDictStr (args : Args) : String :=
  "\x7b" ++ String.intercalate ", "
    (args.map (fun kv => "\x27" ++ kv.1 ++ "\x27: \x27" ++ kv.2 ++ "\x27")) ++ "\x7d"

/-- What the consent round-trip can observe: a human reply with some text,
no reply before the 60s timeout (`res` is `None`), or an exception raised
during the prompt round-trip. -/
inductive ConsentEvent where
  | reply (text : String)
  | timeout
  | error
deriving DecidableEq

/-- Behaviour of the underlying (unwrapped) tool when actually invoked:
a successful result string, or a raised exception with message `msg`. -/
inductive ToolResult where
  | ok (s : String)
  | exn (msg : String)
deriving DecidableEq

/-- Observable outcome of one wrapped tool invocation: the textual result
returned to the agent, whether the underlying tool's invocation function
was called, and whether the consent gate was invoked. -/
structure InvokeLog where
  result : String
  toolCalled : Bool
  consentRequested : Bool
deriving DecidableEq

namespace McpToolsWrapper

/-- `src/utils/mcp_tools_wrapper.py`: tokens accepted as approval in
`request_user_consent` (`["yes", "y", "approve", "ok"]`). -/
def affirmative_tokens : List String := ["yes", "y", "approve", "ok"]

/-- `request_user_consent` from `mcp_tools_wrapper.py`: on a reply,
`res.get("output", "").strip().lower()` is tested against the affirmative
tokens; a timeout (`res` falsy) returns `False`; any exception during the
round-trip is caught and returns `False`. -/
def request_user_consent : ConsentEvent → Bool
  | ConsentEvent.reply t => affirmative_tokens.contains (pyLower (pyStrip t))
  | ConsentEvent.timeout => false
  | ConsentEvent.error => false

/-- Read-only indicator keywords of `is_mutation_operation`
in `mcp_tools_wrapper.py`. -/
def readonly_keywords : List String :=
  ["describe", "list", "get", "show", "head"]

/-- Mutation indicator keywords of `is_mutation_operation`
in `mcp_tools_wrapper.py`. -/
def mutation_keywords : List String :=
  ["create", "delete", "modify", "update", "put", "terminate",
   "stop", "start", "reboot", "attach", "detach", "associate",
   "disassociate", "enable", "disable", "configure", "run",
   "allocate", "release", "copy", "import", "export"]

/-- Command extraction in `mcp_tools_wrapper.py`:
`arguments.get("cli_command", "") or arguments.get("command", "") or
arguments.get("aws_command", "") or ""`. -/
def extractCliCommand (arguments : Args) : String :=
  pyOr (getArg arguments "cli_command")
    (pyOr (getArg arguments "command")
      (pyOr (getArg arguments "aws_command") ""))

/-- `is_mutation_operation` from `mcp_tools_wrapper.py`: only `call_aws` is
inspected; read-only keywords are scanned first over the lower-cased
extracted command, then mutation keywords; default read-only. Returns
`(is_mutation, operation_description)`. -/
def is_mutation_operation (tool_name : String) (arguments : Args) :
    Bool × String :=
  if tool_name = "call_aws" then
    if readonly_keywords.any
        (fun k => strContains (pyLower (extractCliCommand arguments)) k) then
      (false, "")
    else if mutation_keywords.any
        (fun k => strContains (pyLower (extractCliCommand arguments)) k) then
      (true, extractCliCommand arguments)
    else
      (false, "")
  else
    (false, "")

/-- The cancellation text `wrapped_invoke` returns on denial:
`f"❌ \x7berror_msg\x7d. The operation was cancelled and no changes were made
to AWS infrastructure."` with
`error_msg = f"Operation '\x7boperation_desc\x7d' was denied by user"`. -/
def denialMessage (operation_desc : String) : String :=
  "❌ Operation \x27" ++ operation_desc ++
    "\x27 was denied by user. The operation was cancelled and no changes were made to AWS infrastructure."

/-- The permission-error text of `wrapped_invoke`'s exception handler. -/
def permissionErrorMessage (msg : String) : String :=
  "❌ Permission Error: The current IAM role does not have permission to perform this operation. Error: " ++ msg

/-- The generic error text of `wrapped_invoke`'s exception handler. -/
def genericErrorMessage (t_name msg : String) : String :=
  "❌ Error executing " ++ t_name ++ ": " ++ msg

/-- The `try: result = await original_t.ainvoke(kwargs) ... except` tail of
`wrapped_invoke`: the underlying tool is called; an exception is converted
to a permission-error text when the message contains `UnauthorizedOperation`
or (lower-cased) `not authorized`, otherwise to a generic error text. -/
def executeOriginal (t_name : String) (underlying : ToolResult)
    (consented : Bool) : InvokeLog :=
  match underlying with
  | ToolResult.ok s =>
      { result := s, toolCalled := true, consentRequested := consented }
  | ToolResult.exn msg =>
      { result :=
          if strContains msg "UnauthorizedOperation" ||
             strContains (pyLower msg) "not authorized" then
            permissionErrorMessage msg
          else
            genericErrorMessage t_name msg,
        toolCalled := true, consentRequested := consented }

/-- `wrapped_invoke` from `wrap_mcp_tools` in `mcp_tools_wrapper.py`:
classify; if mutating, run the consent gate, and on denial return the
cancellation text without invoking the underlying tool; otherwise invoke
the underlying tool and convert exceptions to structured text. -/
def wrapped_invoke (t_name : String) (kwargs : Args) (ev : ConsentEvent)
    (underlying : ToolResult) : InvokeLog :=
  if (is_mutation_operation t_name kwargs).1 then
    if request_user_consent ev then
      executeOriginal t_name underlying true
    else
      { result := denialMessage (is_mutation_operation t_name kwargs).2,
        toolCalled := false, consentRequested := true }
  else
    executeOriginal t_name underlying false

end McpToolsWrapper

namespace McpConsent

/-- Mutation indicator keywords of `is_mutation_operation`
in `mcp_consent.py` (note: differs from the wrapper's list). -/
def mutation_keywords : List String :=
  ["create", "delete", "modify", "update", "put", "attach", "detach",
   "start", "stop", "terminate", "reboot", "associate", "disassociate",
   "enable", "disable", "register", "deregister"]

/-- Read-only indicator keywords of `is_mutation_operation`
in `mcp_consent.py` (no `"head"`, unlike the wrapper's list). -/
def readonly_keywords : List String :=
  ["describe", "list", "get", "show"]

/-- Command extraction in `mcp_consent.py`:
`(tool_input.get("command", "") or tool_input.get("aws_command", "") or
tool_input.get("cli_command", "") or str(tool_input)).lower()`. -/
def extractCommand (tool_input : Args) : String :=
  pyLower
    (pyOr (getArg tool_input "command")
      (pyOr (getArg tool_input "aws_command")
        (pyOr (getArg tool_input "cli_command") (pyDictStr tool_input))))

/-- The keyword scan of `is_mutation_operation` in `mcp_consent.py`:
read-only keywords first, then mutation keywords, default read-only. -/
def classifyCommand (command : String) : Bool :=
  if readonly_keywords.any (fun k => strContains command k) then
    false
  else if mutation_keywords.any (fun k => strContains command k) then
    true
  else
    false

/-- `is_mutation_operation` from `mcp_consent.py`: only `call_aws` is
inspected; the extracted (already lower-cased) command is scanned. -/
def is_mutation_operation (tool_name : String) (tool_input : Args) : Bool :=
  if tool_name = "call_aws" then
    classifyCommand (extractCommand tool_input)
  else
    false

namespace ConsentManager

/-- `ConsentManager.request_consent` from `mcp_consent.py`: same outcome
logic as the wrapper's `request_user_consent` (reply text trimmed,
lower-cased, tested against `["yes", "y", "approve", "ok"]`; timeout and
exceptions resolve to `False`); only the UI messages differ. -/
def request_consent : ConsentEvent → Bool
  | ConsentEvent.reply t =>
      McpToolsWrapper.affirmative_tokens.contains (pyLower (pyStrip t))
  | ConsentEvent.timeout => false
  | ConsentEvent.error => false

end ConsentManager

end McpConsent

namespace App

/-- One entry of the `mcpServers` section of the MCP config
(`src/ui/app.py`, `initialize_mcp`): the server name and its launch
command (`server_cfg.get("command")`, absent or empty means the server is
skipped with a warning). Argument list and environment are passed through
unchanged and do not affect the control flow modelled here. -/
structure ServerConfig where
  name : String
  command : Option String
deriving DecidableEq

/-- Python's `if not command: continue` guard: the server is attempted
only when `command` is present and non-empty. -/
def hasCommand : Option String → Bool
  | none => false
  | some s => !(s == "")

/-- What one connection attempt (stdio client + session handshake +
`load_mcp_tools`) does for a given server: yields that server's tool
names, or raises (any exception caught by the per-server `except`). -/
inductive ConnectOutcome where
  | success (tools : List String)
  | failure
deriving DecidableEq

/-- The process-wide MCP state of `app.py`: `_mcp_tools`, `_mcp_ready`,
`_mcp_connections` (names, in acquisition order), plus an instrumentation
counter of connection attempts (spawned subprocess sessions). -/
structure McpState where
  tools : List String
  ready : Bool
  connections : List String
  attempts : Nat
deriving DecidableEq

/-- The module-level initial state: `_mcp_tools = []`, `_mcp_ready =
False`, `_mcp_connections = []`. -/
def initState : McpState :=
  { tools := [], ready := false, connections := [], attempts := 0 }

/-- The MCP configuration as `initialize_mcp` sees it: the config file
failed to open/parse, or it loaded and its `mcpServers` section holds the
given (possibly empty) list of entries, in declaration order. -/
inductive ConfigSource where
  | missing
  | loaded (servers : List ServerConfig)
deriving DecidableEq

/-- Accumulated effect of the `for server_name, server_cfg in
servers.items()` loop of `initialize_mcp`: collected tools (`all_tools`),
names of servers whose connection succeeded (appended to
`_mcp_connections`), and the number of connection attempts made. -/
structure LoadResult where
  tools : List String
  connected : List String
  attempts : Nat
deriving DecidableEq

/-- The per-server loop of `initialize_mcp`: servers without a command are
skipped; each remaining server is attempted inside its own `try/except`,
so a failure is logged and the loop continues with the next server. -/
def loadServers (behavior : ServerConfig → ConnectOutcome) :
    List ServerConfig → LoadResult
  | [] => { tools := [], connected := [], attempts := 0 }
  | s :: rest =>
      if hasCommand s.command then
        match behavior s with
        | ConnectOutcome.success ts =>
            let r := loadServers behavior rest
            { tools := ts ++ r.tools, connected := s.name :: r.connected,
              attempts := r.attempts + 1 }
        | ConnectOutcome.failure =>
            let r := loadServers behavior rest
            { tools := r.tools, connected := r.connected,
              attempts := r.attempts + 1 }
      else
        loadServers behavior rest

/-- `initialize_mcp` from `src/ui/app.py`: skip when `_mcp_ready` is
already true; skip (clearing tools) when MCP is disabled, the config file
cannot be loaded, or the `mcpServers` section is absent/empty; otherwise
run the per-server loop, set `_mcp_tools = all_tools`,
`_mcp_ready = len(all_tools) > 0`, and append the new connections. -/
def initialize_mcp (enable : Bool) (behavior : ServerConfig → ConnectOutcome)
    (cfg : ConfigSource) (st : McpState) : McpState :=
  if st.ready then st
  else if !enable then { st with tools := [], ready := false }
  else
    match cfg with
    | ConfigSource.missing => { st with tools := [], ready := false }
    | ConfigSource.loaded servers =>
        if servers.isEmpty then { st with tools := [], ready := false }
        else
          let r := loadServers behavior servers
          { tools := r.tools,
            ready := !r.tools.isEmpty,
            connections := st.connections ++ r.connected,
            attempts := st.attempts + r.attempts }

/-- One step of `cleanup_mcp`'s body for one connection: the name is read
(the connection is processed), then `session_context.__aexit__` and
`client_context.__aexit__` are awaited inside a single `try`; if the
session close raises, the client close of that same connection is skipped;
either failure is caught by the per-connection `except`. -/
inductive CloseEvent where
  | processed (name : String)
  | closedSession (name : String)
  | closedClient (name : String)
deriving DecidableEq

/-- Close behaviour for one connection: whether the session close and the
client close each succeed (`false` = that `__aexit__` raises). -/
def closeConnection (behavior : String → Bool × Bool) (n : String) :
    List CloseEvent :=
  CloseEvent.processed n ::
    (if (behavior n).1 then
      CloseEvent.closedSession n ::
        (if (behavior n).2 then [CloseEvent.closedClient n] else [])
    else [])

/-- `cleanup_mcp` from `src/ui/app.py`: `for connection in
_mcp_connections` — the connections are processed in the order they were
acquired; each close failure is caught and logged; finally the list is
cleared. Returns the trace of close events. -/
def cleanup_mcp (behavior : String → Bool × Bool) :
    List String → List CloseEvent
  | [] => []
  | c :: rest => closeConnection behavior c ++ cleanup_mcp behavior rest

/-- The names of the connections processed by a cleanup trace, in
processing order. -/
def processedNames : List CloseEvent → List String
  | [] => []
  | CloseEvent.processed n :: rest => n :: processedNames rest
  | CloseEvent.closedSession _ :: rest => processedNames rest
  | CloseEvent.closedClient _ :: rest => processedNames rest

/-- `base_tools` from `src/ui/app.py`: the two always-available local
tools, by name. -/
def base_tools : List String := ["generate_image", "render_chart"]

/-- `wrap_mcp_tools` preserves each tool's name (`name=tool.name` in
`StructuredTool.from_function`); at the name level wrapping is the
identity on the list. -/
def wrap_mcp_tools_names (mcpTools : List String) : List String := mcpTools

/-- The tool set the agent is built with in `on_chat_start`:
`base_tools() + wrapped_mcp_tools`. -/
def current_tools (mcpTools : List String) : List String :=
  base_tools ++ wrap_mcp_tools_names mcpTools

/-- Whether a server's connection attempt is made and succeeds. -/
def connectOk (behavior : ServerConfig → ConnectOutcome)
    (s : ServerConfig) : Bool :=
  hasCommand s.command &&
    (match behavior s with
     | ConnectOutcome.success _ => true
     | ConnectOutcome.failure => false)

/-- The tools one config entry contributes to `all_tools`. -/
def serverTools (behavior : ServerConfig → ConnectOutcome)
    (s : ServerConfig) : List String :=
  if hasCommand s.command then
    match behavior s with
    | ConnectOutcome.success ts => ts
    | ConnectOutcome.failure => []
  else []

end App

/-! Helper lemmas about the per-server loop. -/

/-- The per-server loop attempts exactly the servers that have a command,
collects the tools of the successful ones in declaration order, and
records the successfully connected servers in acquisition order —
independently of which attempts fail. -/
lemma loadServers_spec (behavior : App.ServerConfig → App.ConnectOutcome)
    (servers : List App.ServerConfig) :
    (App.loadServers behavior servers).attempts
        = (servers.filter (fun s => App.hasCommand s.command)).length ∧
    (App.loadServers behavior servers).tools
        = servers.flatMap (App.serverTools behavior) ∧
    (App.loadServers behavior servers).connected
        = (servers.filter (App.connectOk behavior)).map App.ServerConfig.name := by
  induction servers with
  | nil => simp [App.loadServers]
  | cons s rest ih =>
      obtain ⟨ha, ht, hc⟩ := ih
      by_cases h : App.hasCommand s.command = true
      · cases hb : behavior s with
        | success ts =>
            simp [App.loadServers, h, hb, App.serverTools, App.connectOk,
              ha, ht, hc]
        | failure =>
            simp [App.loadServers, h, hb, App.serverTools, App.connectOk,
              ha, ht, hc]
      · simp [App.loadServers, h, App.serverTools, App.connectOk,
          ha, ht, hc]


/-! Claim theorems. -/

/-- C1: for every call to a wrapped tool that the mutation classifier
marks as mutating, if the consent round-trip resolves to denial (negative
reply, timeout, or consent-transport error all make `request_user_consent`
return `false`), the wrapper returns the normal textual cancellation
result and the underlying tool's invocation function is never called. -/
theorem c1_denial_blocks_tool (t_name : String) (kwargs : Args)
    (ev : ConsentEvent) (underlying : ToolResult)
    (hmut : (McpToolsWrapper.is_mutation_operation t_name kwargs).1 = true)
    (hdeny : McpToolsWrapper.request_user_consent ev = false) :
    McpToolsWrapper.wrapped_invoke t_name kwargs ev underlying
      = { result := McpToolsWrapper.denialMessage
            (McpToolsWrapper.is_mutation_operation t_name kwargs).2,
          toolCalled := false, consentRequested := true } := by
  simp [McpToolsWrapper.wrapped_invoke, hmut, hdeny]

/-- Witness for C1: `terminate-instances i-0123` is classified mutating,
a consent timeout denies, and the wrapped call returns the cancellation
text without calling the underlying tool. -/
theorem c1_denial_blocks_tool_witness :
    (McpToolsWrapper.is_mutation_operation "call_aws"
        [("cli_command", "terminate-instances i-0123")]).1 = true ∧
    McpToolsWrapper.request_user_consent ConsentEvent.timeout = false ∧
    McpToolsWrapper.wrapped_invoke "call_aws"
        [("cli_command", "terminate-instances i-0123")] ConsentEvent.timeout
        (ToolResult.ok "done")
      = { result := McpToolsWrapper.denialMessage
            (McpToolsWrapper.is_mutation_operation "call_aws"
              [("cli_command", "terminate-instances i-0123")]).2,
          toolCalled := false, consentRequested := true } :=
  ⟨by decide, by decide,
    c1_denial_blocks_tool "call_aws"
      [("cli_command", "terminate-instances i-0123")] ConsentEvent.timeout
      (ToolResult.ok "done") (by decide) (by decide)⟩

/-- C2: for every argument mapping passed to `call_aws`, if any read-only
indicator keyword occurs as a substring of the lower-cased extracted
command string, the wrapper classifier returns read-only — even when
mutation keywords also occur. -/
theorem c2_readonly_priority (args : Args)
    (h : ∃ k ∈ McpToolsWrapper.readonly_keywords,
        strContains (pyLower (McpToolsWrapper.extractCliCommand args)) k
          = true) :
    McpToolsWrapper.is_mutation_operation "call_aws" args = (false, "") := by
  have hany : McpToolsWrapper.readonly_keywords.any
      (fun k =>
        strContains (pyLower (McpToolsWrapper.extractCliCommand args)) k)
        = true := by
    obtain ⟨k, hk, hck⟩ := h
    exact List.any_eq_true.mpr ⟨k, hk, hck⟩
  simp [McpToolsWrapper.is_mutation_operation, hany]

/-- Witness for C2: `classify("describe and then delete")` is read-only
although the mutation keyword `delete` also occurs. -/
theorem c2_readonly_priority_witness :
    (∃ k ∈ McpToolsWrapper.readonly_keywords,
        strContains (pyLower (McpToolsWrapper.extractCliCommand
          [("cli_command", "describe and then delete")])) k = true) ∧
    McpToolsWrapper.is_mutation_operation "call_aws"
        [("cli_command", "describe and then delete")] = (false, "") :=
  ⟨⟨"describe", by decide, by decide⟩,
    c2_readonly_priority [("cli_command", "describe and then delete")]
      ⟨"describe", by decide, by decide⟩⟩

/-- C3: a consent request resolves to approval iff a human reply arrives
before the timeout whose trimmed, lower-cased text is one of `yes`, `y`,
`approve`, `ok`; any other reply, a timeout, and an error during the
round-trip all resolve to denial — in both consent implementations. -/
theorem c3_consent_accept_iff (ev : ConsentEvent) :
    (McpToolsWrapper.request_user_consent ev = true ↔
      ∃ t, ev = ConsentEvent.reply t ∧
        McpToolsWrapper.affirmative_tokens.contains (pyLower (pyStrip t))
          = true) ∧
    McpConsent.ConsentManager.request_consent ev
      = McpToolsWrapper.request_user_consent ev := by
  cases ev with
  | reply t =>
      exact ⟨by simp [McpToolsWrapper.request_user_consent], rfl⟩
  | timeout =>
      exact ⟨by simp [McpToolsWrapper.request_user_consent], rfl⟩
  | error =>
      exact ⟨by simp [McpToolsWrapper.request_user_consent], rfl⟩

/-- C5: for every tool name other than `call_aws`, both classifiers
return read-only and a wrapped invocation never reaches the consent
gate. -/
theorem c5_non_call_aws_readonly (name : String) (args : Args)
    (h : name ≠ "call_aws") (ev : ConsentEvent) (underlying : ToolResult) :
    McpToolsWrapper.is_mutation_operation name args = (false, "") ∧
    McpConsent.is_mutation_operation name args = false ∧
    (McpToolsWrapper.wrapped_invoke name args ev underlying).consentRequested
      = false := by
  have hm : McpToolsWrapper.is_mutation_operation name args = (false, "") := by
    simp [McpToolsWrapper.is_mutation_operation, h]
  refine ⟨hm, by simp [McpConsent.is_mutation_operation, h], ?_⟩
  cases underlying <;>
    simp [McpToolsWrapper.wrapped_invoke, hm, McpToolsWrapper.executeOriginal]

/-- Witness for C5: `get_cost_and_usage` is not `call_aws`; its wrapped
invocation is classified read-only and asks for no consent. -/
theorem c5_non_call_aws_readonly_witness :
    ("get_cost_and_usage" : String) ≠ "call_aws" ∧
    (McpToolsWrapper.is_mutation_operation "get_cost_and_usage"
        [("foo", "delete")] = (false, "") ∧
      McpConsent.is_mutation_operation "get_cost_and_usage"
        [("foo", "delete")] = false ∧
      (McpToolsWrapper.wrapped_invoke "get_cost_and_usage" [("foo", "delete")]
        ConsentEvent.timeout (ToolResult.ok "r")).consentRequested = false) :=
  ⟨by decide,
    c5_non_call_aws_readonly "get_cost_and_usage" [("foo", "delete")]
      (by decide) ConsentEvent.timeout (ToolResult.ok "r")⟩

/-- C4 counterexample: the mutation keyword `delete` sits under the
unrecognized key `operation`; the wrapper classifier (the one used by
`wrap_mcp_tools`) falls back to the empty string, not to the stringified
dump, so the keyword is not seen and the call is classified read-only —
while the consent-module classifier, whose fallback is `str(tool_input)`,
does see it. -/
theorem c4_counterexample :
    McpToolsWrapper.is_mutation_operation "call_aws"
        [("operation", "delete-bucket")] = (false, "") ∧
    McpConsent.is_mutation_operation "call_aws"
        [("operation", "delete-bucket")] = true := by
  decide

/-- C4 (amended): both classifiers check a fixed priority order of alias
keys, but only the consent-module classifier falls back to the stringified
dump of the whole argument mapping when no alias key yields a value; the
wrapper classifier falls back to the empty string, so mutation keywords
under unrecognized keys are seen only by the consent-module version. -/
theorem c4_fallback_divergence (args : Args)
    (h1 : getArg args "cli_command" = "")
    (h2 : getArg args "command" = "")
    (h3 : getArg args "aws_command" = "") :
    McpToolsWrapper.extractCliCommand args = "" ∧
    McpToolsWrapper.is_mutation_operation "call_aws" args = (false, "") ∧
    McpConsent.extractCommand args = pyLower (pyDictStr args) ∧
    McpConsent.is_mutation_operation "call_aws" args
      = McpConsent.classifyCommand (pyLower (pyDictStr args)) := by
  have he : McpToolsWrapper.extractCliCommand args = "" := by
    simp [McpToolsWrapper.extractCliCommand, h1, h2, h3, pyOr]
  have hc : McpConsent.extractCommand args = pyLower (pyDictStr args) := by
    simp [McpConsent.extractCommand, h1, h2, h3, pyOr]
  refine ⟨he, ?_, hc, ?_⟩
  · simp only [McpToolsWrapper.is_mutation_operation, he]
    decide
  · simp only [McpConsent.is_mutation_operation, hc]
    simp

/-- Witness for C4 (amended): on `\x7b"operation": "delete-bucket"\x7d` no
alias key yields a value; the wrapper extracts `""` and classifies
read-only, the consent module classifies the stringified dump. -/
theorem c4_fallback_divergence_witness :
    getArg [("operation", "delete-bucket")] "cli_command" = "" ∧
    getArg [("operation", "delete-bucket")] "command" = "" ∧
    getArg [("operation", "delete-bucket")] "aws_command" = "" ∧
    (McpToolsWrapper.extractCliCommand [("operation", "delete-bucket")] = "" ∧
      McpToolsWrapper.is_mutation_operation "call_aws"
        [("operation", "delete-bucket")] = (false, "") ∧
      McpConsent.extractCommand [("operation", "delete-bucket")]
        = pyLower (pyDictStr [("operation", "delete-bucket")]) ∧
      McpConsent.is_mutation_operation "call_aws"
        [("operation", "delete-bucket")]
        = McpConsent.classifyCommand
            (pyLower (pyDictStr [("operation", "delete-bucket")]))) :=
  ⟨by decide, by decide, by decide,
    c4_fallback_divergence [("operation", "delete-bucket")]
      (by decide) (by decide) (by decide)⟩

/-- C10 counterexample: on `call_aws` with command `run-instances` the two
classifiers disagree — `run` is a mutation keyword only in the wrapper's
list, so the wrapper says mutating and the consent module says
read-only. -/
theorem c10_counterexample :
    ¬ ((McpToolsWrapper.is_mutation_operation "call_aws"
          [("command", "run-instances")]).1
        = McpConsent.is_mutation_operation "call_aws"
            [("command", "run-instances")]) := by
  decide

/-- C10 (amended): the two classifiers are not extensionally equivalent on
`call_aws` (their keyword lists, alias priority order, and no-alias
fallback differ), but they agree on every other tool name, where both
return read-only. -/
theorem c10_agree_off_call_aws (name : String) (args : Args)
    (h : name ≠ "call_aws") :
    (McpToolsWrapper.is_mutation_operation name args).1
      = McpConsent.is_mutation_operation name args := by
  simp [McpToolsWrapper.is_mutation_operation,
    McpConsent.is_mutation_operation, h]

/-- Witness for C10 (amended): both classifiers say read-only for the
local tool `render_chart`. -/
theorem c10_agree_off_call_aws_witness :
    ("render_chart" : String) ≠ "call_aws" ∧
    (McpToolsWrapper.is_mutation_operation "render_chart"
        [("spec", "delete everything")]).1
      = McpConsent.is_mutation_operation "render_chart"
          [("spec", "delete everything")] :=
  ⟨by decide,
    c10_agree_off_call_aws "render_chart" [("spec", "delete everything")]
      (by decide)⟩

/-- C6: initialization attempts every configured server (with a command)
independently of any other server's failure, collects exactly the tools
of the servers that connected, and the agent's tool set — local tools
plus wrapped MCP tools — is non-empty even when every server fails, so
the chat session stays usable. -/
theorem c6_server_isolation
    (behavior : App.ServerConfig → App.ConnectOutcome)
    (servers : List App.ServerConfig) :
    (App.initialize_mcp true behavior (App.ConfigSource.loaded servers)
        App.initState).attempts
      = (servers.filter (fun s => App.hasCommand s.command)).length ∧
    (App.initialize_mcp true behavior (App.ConfigSource.loaded servers)
        App.initState).tools
      = servers.flatMap (App.serverTools behavior) ∧
    App.current_tools
        (App.initialize_mcp true behavior (App.ConfigSource.loaded servers)
          App.initState).tools
      ≠ [] := by
  obtain ⟨ha, ht, hc⟩ := loadServers_spec behavior servers
  cases servers with
  | nil =>
      refine ⟨?_, ?_, ?_⟩ <;>
        simp [App.initialize_mcp, App.initState, App.current_tools,
          App.base_tools, App.wrap_mcp_tools_names]
  | cons s rest =>
      refine ⟨?_, ?_, ?_⟩ <;>
        simp [App.initialize_mcp, App.initState, ha, ht, hc,
          App.current_tools, App.base_tools, App.wrap_mcp_tools_names]

/-- C7 counterexample: a first initialization in which the single
configured server fails ends DEGRADED (`ready = false`); calling the
entry point a second time is then not a no-op — it performs one more
connection attempt (two in total), because the code only skips when
`_mcp_ready` is true. -/
theorem c7_counterexample :
    (App.initialize_mcp true (fun _ => App.ConnectOutcome.failure)
        (App.ConfigSource.loaded [⟨"broken", some "bad-cmd"⟩])
        App.initState).ready = false ∧
    (App.initialize_mcp true (fun _ => App.ConnectOutcome.failure)
        (App.ConfigSource.loaded [⟨"broken", some "bad-cmd"⟩])
        (App.initialize_mcp true (fun _ => App.ConnectOutcome.failure)
          (App.ConfigSource.loaded [⟨"broken", some "bad-cmd"⟩])
          App.initState)).attempts = 2 := by
  decide

/-- C7 (amended): re-entering the initialization entry point is a no-op —
zero additional connection attempts, registry state unchanged — exactly
when the previous initialization ended READY (`_mcp_ready` true); after a
DEGRADED initialization the guard does not fire and servers are
re-attempted. -/
theorem c7_ready_noop (enable : Bool)
    (behavior : App.ServerConfig → App.ConnectOutcome)
    (cfg : App.ConfigSource) (st : App.McpState) (h : st.ready = true) :
    App.initialize_mcp enable behavior cfg st = st := by
  simp [App.initialize_mcp, h]

/-- Witness for C7 (amended): on a READY state a further initialization
call changes nothing. -/
theorem c7_ready_noop_witness :
    (({ tools := ["call_aws"], ready := true, connections := ["api"],
        attempts := 1 } : App.McpState).ready = true) ∧
    App.initialize_mcp true (fun _ => App.ConnectOutcome.failure)
        (App.ConfigSource.loaded [⟨"api", some "uvx"⟩])
        { tools := ["call_aws"], ready := true, connections := ["api"],
          attempts := 1 }
      = { tools := ["call_aws"], ready := true, connections := ["api"],
          attempts := 1 } :=
  ⟨rfl,
    c7_ready_noop true (fun _ => App.ConnectOutcome.failure)
      (App.ConfigSource.loaded [⟨"api", some "uvx"⟩])
      { tools := ["call_aws"], ready := true, connections := ["api"],
        attempts := 1 } rfl⟩

/-- C8 counterexample: with two live connections acquired in the order
`srvA`, `srvB`, teardown processes them in that same forward order — not
in reverse order of acquisition as the claim states. -/
theorem c8_counterexample :
    App.processedNames
        (App.cleanup_mcp (fun _ => (true, true)) ["srvA", "srvB"])
      = ["srvA", "srvB"] ∧
    App.processedNames
        (App.cleanup_mcp (fun _ => (true, true)) ["srvA", "srvB"])
      ≠ List.reverse ["srvA", "srvB"] := by
  decide

/-- C8 (amended): teardown processes all live connections in forward
acquisition order (within one connection the session is closed before the
transport), catches each individual close failure without propagating it
so every remaining connection is still processed, and is a no-op raising
nothing on an uninitialized (empty) registry. -/
theorem c8_forward_order_total (behavior : String → Bool × Bool)
    (conns : List String) :
    App.processedNames (App.cleanup_mcp behavior conns) = conns ∧
    App.cleanup_mcp behavior ([] : List String) = [] := by
  refine ⟨?_, rfl⟩
  induction conns with
  | nil => rfl
  | cons c rest ih =>
      cases h1 : (behavior c).1 <;> cases h2 : (behavior c).2 <;>
        simp [App.cleanup_mcp, App.closeConnection, h1, h2,
          App.processedNames, ih]

/-- C9 counterexample: one server connects successfully but exposes zero
tools; the registry then holds that one connection, yet the ready flag is
false — refuting "ready is false only if zero servers connected". -/
theorem c9_counterexample :
    (App.initialize_mcp true (fun _ => App.ConnectOutcome.success [])
        (App.ConfigSource.loaded [⟨"ce", some "uvx"⟩])
        App.initState).connections = ["ce"] ∧
    (App.initialize_mcp true (fun _ => App.ConnectOutcome.success [])
        (App.ConfigSource.loaded [⟨"ce", some "uvx"⟩])
        App.initState).ready = false := by
  decide

/-- C9 (amended): after any initialization attempt from the empty state,
the registry holds exactly the connections of the servers that did
connect, and the ready flag is true iff at least one tool was loaded — a
server that connects but yields zero tools leaves the flag false. -/
theorem c9_registry_invariant
    (behavior : App.ServerConfig → App.ConnectOutcome)
    (servers : List App.ServerConfig) :
    (App.initialize_mcp true behavior (App.ConfigSource.loaded servers)
        App.initState).connections
      = (servers.filter (App.connectOk behavior)).map App.ServerConfig.name ∧
    ((App.initialize_mcp true behavior (App.ConfigSource.loaded servers)
        App.initState).ready = true ↔
      (App.initialize_mcp true behavior (App.ConfigSource.loaded servers)
        App.initState).tools ≠ []) := by
  obtain ⟨ha, ht, hc⟩ := loadServers_spec behavior servers
  cases servers with
  | nil =>
      refine ⟨?_, ?_⟩ <;> simp [App.initialize_mcp, App.initState]
  | cons s rest =>
      refine ⟨?_, ?_⟩ <;>
        simp [App.initialize_mcp, App.initState, ha, ht, hc,
          List.isEmpty_iff]
